import Mathlib

/-!
Verification of the contacts web-backend: a shallow embedding of its data
model (src/database/models.py), repository layer (src/repository/contacts.py,
src/repository/users.py) and route layer (src/routes/contacts.py,
src/routes/auth.py), together with theorems settling the behavioural
properties stated in the specification.

The database is modelled as the pair of the two relational tables; an ORM
query that filters and mutates rows is embedded as an explicit function on
that state.  Route handlers become functions from a request (plus the
injected dependencies) to an HTTP outcome and the successor state.
-/

namespace ContactsApp

/-- Calendar date (year, month, day).  Used for the birthday column and for
the "today" value that the upcoming-birthdays query reads from the clock. -/
structure Date where
  year : Nat
  month : Nat
  day : Nat
deriving DecidableEq

/-- Gregorian leap-year test. -/
def isLeap (y : Nat) : Bool :=
  (y % 4 == 0 && y % 100 != 0) || y % 400 == 0

/-- Number of days of month `m` of year `y` in the Gregorian calendar. -/
def daysInMonth (y m : Nat) : Nat :=
  if m == 2 then (if isLeap y then 29 else 28)
  else if m == 4 || m == 6 || m == 9 || m == 11 then 30
  else 31

/-- Successor day in the Gregorian calendar. -/
def nextDay (d : Date) : Date :=
  if d.day < daysInMonth d.year d.month then { d with day := d.day + 1 }
  else if d.month < 12 then { year := d.year, month := d.month + 1, day := 1 }
  else { year := d.year + 1, month := 1, day := 1 }

/-- Date plus `n` days: embeds Python's `date + timedelta(days=n)`. -/
def addDays : Nat → Date → Date
  | 0, d => d
  | n + 1, d => addDays n (nextDay d)

/-- Row of the `users` table, fields as declared in src/database/models.py:
id (primary key), username, email (unique, not null), password hash,
optional refresh token, confirmed flag, optional avatar URL.  The creation
timestamp plays no role in any claim and is omitted. -/
structure User where
  id : Nat
  username : String
  email : String
  password : String
  refresh_token : Option String
  confirmed : Bool
  avatar : Option String
deriving DecidableEq

/-- Row of the `contacts` table, fields as declared in
src/database/models.py: id (primary key), first/last name, email, phone
number, nullable birthday, nullable additional data, and the foreign key
`user_id` referencing `users.id`. -/
structure Contact where
  id : Nat
  first_name : String
  last_name : String
  email : String
  phone_number : String
  birthday : Option Date
  additional_data : Option String
  user_id : Nat
deriving DecidableEq

/-- The persisted state: the two relational tables. -/
structure DB where
  users : List User
  contacts : List Contact
deriving DecidableEq

/-- Modelled from the spec: the request schema `ContactCreate`
(src/schemas.py is not part of the source tree; §3 lists the contact fields:
first/last name, email, phone number, optional birthday, optional free-form
additional data). -/
structure ContactCreate where
  first_name : String
  last_name : String
  email : String
  phone_number : String
  birthday : Option Date
  additional_data : Option String
deriving DecidableEq

/-- Modelled from the spec: the request schema `ContactUpdate`
(src/schemas.py is not part of the source tree); per §4.1 the update payload
carries every contact field and `update` overwrites them all, so the schema
has the same six content fields as `ContactCreate`. -/
structure ContactUpdate where
  first_name : String
  last_name : String
  email : String
  phone_number : String
  birthday : Option Date
  additional_data : Option String
deriving DecidableEq

/-- Case-insensitive character comparison, as performed by ILIKE. -/
def lowerEq (a b : Char) : Bool := a.toLower == b.toLower

/-- Disjunction of a predicate over every suffix of a character list
(including the list itself and the empty suffix). -/
def anySuffix (f : List Char → Bool) : List Char → Bool
  | [] => f []
  | c :: s2 => f (c :: s2) || anySuffix f s2

/-- SQL LIKE/ILIKE pattern matching over character lists: `%` matches any
sequence (some suffix of the value must match the rest of the pattern),
`_` matches exactly one character, every other pattern character matches
case-insensitively.  This is the semantics of the `column.ilike(pattern)`
filters issued by the repository. -/
def likeMatch : List Char → List Char → Bool
  | [], s => s.isEmpty
  | p :: ps, s =>
    if p == '%' then anySuffix (fun t => likeMatch ps t) s
    else
      match s with
      | [] => false
      | c :: s2 => (p == '_' || lowerEq p c) && likeMatch ps s2

/-- Pattern built by the repository for each search argument: the query
string surrounded by `%` wildcards (the f-string `"%{q}%"` in the source,
with the braces standing for interpolation). -/
def likePattern (q : String) : String := "%" ++ q ++ "%"

/-- Column ILIKE pattern, as a Boolean on the stored value. -/
def ilike (value pat : String) : Bool := likeMatch pat.toList value.toList

/-- Query strings that contain no LIKE wildcard character (`%` or `_`). -/
def noWild (q : String) : Bool :=
  q.toList.all (fun c => !(c == '%') && !(c == '_'))

namespace Repository

/-- Embeds `get_contacts` (src/repository/contacts.py): the page of the
caller's contacts, `offset(skip).limit(limit)`. -/
def get_contacts (skip limit : Nat) (user : User) (db : DB) : List Contact :=
  ((db.contacts.filter (fun c => c.user_id == user.id)).drop skip).take limit

/-- Embeds `get_contact` (src/repository/contacts.py): first row with the
given id owned by the caller, or None. -/
def get_contact (contact_id : Nat) (user : User) (db : DB) : Option Contact :=
  db.contacts.find? (fun c => c.id == contact_id && c.user_id == user.id)

/-- Next value of the autoincrementing contacts primary key. -/
def nextContactId (db : DB) : Nat :=
  (db.contacts.map (fun c => c.id)).foldr max 0 + 1

/-- Embeds `create_contact` (src/repository/contacts.py): inserts a row
with the payload fields and the caller as owner, returns it with its
generated id. -/
def create_contact (body : ContactCreate) (user : User) (db : DB) :
    Contact × DB :=
  let contact : Contact :=
    { id := nextContactId db
      first_name := body.first_name
      last_name := body.last_name
      email := body.email
      phone_number := body.phone_number
      birthday := body.birthday
      additional_data := body.additional_data
      user_id := user.id }
  (contact, { db with contacts := db.contacts ++ [contact] })

/-- Embeds `remove_contact` (src/repository/contacts.py): looks the row up
by id and owner; if found, deletes that row (by primary key) and returns
it, otherwise returns None and the state is untouched. -/
def remove_contact (contact_id : Nat) (user : User) (db : DB) :
    Option Contact × DB :=
  match db.contacts.find? (fun c => c.id == contact_id && c.user_id == user.id) with
  | none => (none, db)
  | some contact =>
    (some contact,
     { db with contacts := db.contacts.filter (fun c => !(c.id == contact.id)) })

/-- Field-by-field assignment performed by `update_contact`: the source
iterates `body.dict().items()` and `setattr`s every payload field onto the
row, so each of the six content fields is overwritten (the id and the owner
are not part of the payload). -/
def setAllFields (body : ContactUpdate) (c : Contact) : Contact :=
  { c with
    first_name := body.first_name
    last_name := body.last_name
    email := body.email
    phone_number := body.phone_number
    birthday := body.birthday
    additional_data := body.additional_data }

/-- Embeds `update_contact` (src/repository/contacts.py): looks the row up
by id and owner; if found, overwrites every payload field on that row and
returns it, otherwise returns None and the state is untouched. -/
def update_contact (contact_id : Nat) (body : ContactUpdate) (user : User)
    (db : DB) : Option Contact × DB :=
  match db.contacts.find? (fun c => c.id == contact_id && c.user_id == user.id) with
  | none => (none, db)
  | some contact =>
    let updated := setAllFields body contact
    (some updated,
     { db with contacts :=
        db.contacts.map (fun c => if c.id == contact.id then updated else c) })

/-- The three ILIKE conditions of `search_contacts`, on one contact row. -/
def searchCond (first_name last_name email : String) (c : Contact) : Bool :=
  ilike c.first_name (likePattern first_name) &&
  ilike c.last_name (likePattern last_name) &&
  ilike c.email (likePattern email)

/-- Embeds `search_contacts` (src/repository/contacts.py): the query joins
`contacts` with `users` through the filter conjunct
`Contact.user_id == User.id` (an implicit cross join restricted to matching
pairs — not a restriction to the caller), and keeps the rows whose three
columns match the interpolated ILIKE patterns; one contact row is emitted
per matching (contact, user) pair. -/
def search_contacts (db : DB) (first_name last_name email : String) :
    List Contact :=
  db.contacts.flatMap (fun c =>
    db.users.filterMap (fun u =>
      if searchCond first_name last_name email c && (c.user_id == u.id)
      then some c else none))

/-- The date conditions of `get_contacts_upcoming_birthdays` on one row:
a NULL birthday makes every `date_part` comparison unknown, hence false;
otherwise the birthday month must equal today's month and the birthday
day-of-month must lie between today's day and the day-of-month of
`today + 7 days`.  (The source's `Contact.birthday is not None` conjunct is
a Python-level constant, not a SQL filter; it is the NULL propagation of the
comparisons that excludes NULL birthdays.) -/
def bdayCond (today next_week : Date) (c : Contact) : Bool :=
  match c.birthday with
  | none => false
  | some b =>
    b.month == today.month &&
    decide (b.day ≥ today.day) &&
    decide (b.day ≤ next_week.day)

/-- Embeds `get_contacts_upcoming_birthdays` (src/repository/contacts.py).
The clock read `datetime.now().date()` is passed in as the explicit
argument `today`; `next_week` is `today + timedelta(days=7)`.  As in
`search_contacts`, the conjunct `Contact.user_id == User.id` joins the two
tables rather than scoping by caller. -/
def get_contacts_upcoming_birthdays (db : DB) (today : Date) : List Contact :=
  db.contacts.flatMap (fun c =>
    db.users.filterMap (fun u =>
      if bdayCond today (addDays 7 today) c && (c.user_id == u.id)
      then some c else none))

/-- Embeds `get_user_by_email` (src/repository/users.py): first user row
with the given email, or None. -/
def get_user_by_email (email : String) (db : DB) : Option User :=
  db.users.find? (fun u => u.email == email)

/-- Embeds `update_token` (src/repository/users.py): sets the refresh-token
column of the given user's row and commits. -/
def update_token (user : User) (token : Option String) (db : DB) : DB :=
  { db with users :=
      db.users.map (fun u =>
        if u.id == user.id then { u with refresh_token := token } else u) }

end Repository

/-- Definition following the words of claim C2 (spec §8): the set of
contacts — across all users — whose first name, last name and email each
case-insensitively contain the corresponding query string as a substring.
Stated with `List.IsInfix` on the lower-cased character lists.  To be
compared with `Repository.search_contacts`. -/
def spec_search_contacts (db : DB) (first_name last_name email : String) :
    List Contact :=
  db.contacts.filter (fun c =>
    decide (first_name.toList.map Char.toLower <:+: c.first_name.toList.map Char.toLower) &&
    decide (last_name.toList.map Char.toLower <:+: c.last_name.toList.map Char.toLower) &&
    decide (email.toList.map Char.toLower <:+: c.email.toList.map Char.toLower))

/-- Definition following the words of claim C3 (spec §8): the contacts whose
birthday month equals today's month and whose birthday day-of-month lies in
the inclusive interval from today's day to today's day + 7.  To be compared
with `Repository.get_contacts_upcoming_birthdays`. -/
def spec_upcoming_birthdays (db : DB) (today : Date) : List Contact :=
  db.contacts.filter (fun c =>
    match c.birthday with
    | none => false
    | some b =>
      b.month == today.month &&
      decide (today.day ≤ b.day) &&
      decide (b.day ≤ today.day + 7))

/-- HTTP error outcomes raised by the route layer. -/
inductive HError where
  | unauthorized (detail : String)
  | notFound (detail : String)
  | badRequest (detail : String)
  | serverError
deriving DecidableEq

namespace Routes

/-- Embeds the GET /contacts/ handler `read_contacts`
(src/routes/contacts.py).  Modelled from the spec: the dependency
`Depends(auth_service.get_current_user)` (src/services/auth.py is not part
of the source tree) yields the authenticated user, or makes the framework
answer 401 before the handler body runs; the injected outcome is the
`auth` argument, `none` standing for a request without a valid credential. -/
def read_contacts (auth : Option User) (skip limit : Nat) (db : DB) :
    Except HError (List Contact) :=
  match auth with
  | none => .error (.unauthorized "Not authenticated")
  | some user => .ok (Repository.get_contacts skip limit user db)

/-- Embeds the GET /contacts/{contact_id} handler `read_contact`
(src/routes/contacts.py): auth dependency, then the repository lookup, a
None result becoming 404. -/
def read_contact (auth : Option User) (contact_id : Nat) (db : DB) :
    Except HError Contact :=
  match auth with
  | none => .error (.unauthorized "Not authenticated")
  | some user =>
    match Repository.get_contact contact_id user db with
    | none => .error (.notFound "Contact not found")
    | some c => .ok c

/-- Embeds the POST /contacts/ handler `create_contact`
(src/routes/contacts.py): auth dependency, then the repository insert. -/
def create_contact (auth : Option User) (body : ContactCreate) (db : DB) :
    Except HError Contact × DB :=
  match auth with
  | none => (.error (.unauthorized "Not authenticated"), db)
  | some user =>
    let r := Repository.create_contact body user db
    (.ok r.1, r.2)

/-- Embeds the PUT /contacts/{contact_id} handler `update_contact`
(src/routes/contacts.py): auth dependency, then the repository update, a
None result becoming 404. -/
def update_contact (auth : Option User) (body : ContactUpdate)
    (contact_id : Nat) (db : DB) : Except HError Contact × DB :=
  match auth with
  | none => (.error (.unauthorized "Not authenticated"), db)
  | some user =>
    match Repository.update_contact contact_id body user db with
    | (none, db2) => (.error (.notFound "Contact not found"), db2)
    | (some c, db2) => (.ok c, db2)

/-- Embeds the DELETE /contacts/{contact_id} handler `remove_contact`
(src/routes/contacts.py): auth dependency, then the repository delete, a
None result becoming 404. -/
def remove_contact (auth : Option User) (contact_id : Nat) (db : DB) :
    Except HError Contact × DB :=
  match auth with
  | none => (.error (.unauthorized "Not authenticated"), db)
  | some user =>
    match Repository.remove_contact contact_id user db with
    | (none, db2) => (.error (.notFound "Contact not found"), db2)
    | (some c, db2) => (.ok c, db2)

/-- Embeds the GET /contacts/search/ handler `search_contacts_api`
(src/routes/contacts.py).  Its parameter list declares no
`current_user` dependency: the handler takes only the three query strings
and the database session, and calls the repository directly. -/
def search_contacts_api (first_name last_name email : String) (db : DB) :
    Except HError (List Contact) :=
  .ok (Repository.search_contacts db first_name last_name email)

/-- Embeds the GET /contacts/upcoming-birthdays/ handler
`get_upcoming_birthdays` (src/routes/contacts.py).  Its parameter list
declares no `current_user` dependency either; `today` is the clock value
the repository reads. -/
def get_upcoming_birthdays (db : DB) (today : Date) :
    Except HError (List Contact) :=
  .ok (Repository.get_contacts_upcoming_birthdays db today)

/-- Embeds the POST /auth/login handler `login` (src/routes/auth.py).
Modelled from the spec: the auth service's password verification and token
creation (src/services/auth.py is not part of the source tree) are the
function arguments `verify`, `mkAccess`, `mkRefresh`; tokens carry the
user's email as subject.  The handler checks, in order: unknown email
(401 "Invalid email"), unconfirmed account (401 "Email not confirmed"),
failing password verification (401 "Invalid password"); on success it
stores the new refresh token and returns the token triple. -/
def login (verify : String → String → Bool) (mkAccess mkRefresh : String → String)
    (username password : String) (db : DB) :
    Except HError (String × String × String) × DB :=
  match Repository.get_user_by_email username db with
  | none => (.error (.unauthorized "Invalid email"), db)
  | some user =>
    if !user.confirmed then (.error (.unauthorized "Email not confirmed"), db)
    else if !(verify password user.password) then
      (.error (.unauthorized "Invalid password"), db)
    else
      let rt := mkRefresh user.email
      (.ok (mkAccess user.email, rt, "bearer"),
       Repository.update_token user (some rt) db)

/-- Embeds the GET /auth/refresh_token handler `refresh_token`
(src/routes/auth.py).  Modelled from the spec: `decode` stands for the auth
service's `decode_refresh_token` (src/services/auth.py is not part of the
source tree), yielding the subject email or `none` for an invalid token or
a wrong token type, which the service surfaces as 401.  A decoded email
with no matching user row makes the source dereference None
(`user.refresh_token`), an AttributeError surfaced as a 500, modelled as
`serverError`.  A presented token different from the stored one clears the
stored token and answers 401 "Invalid refresh token". -/
def refresh_token (decode : String → Option String)
    (mkAccess mkRefresh : String → String) (token : String) (db : DB) :
    Except HError (String × String × String) × DB :=
  match decode token with
  | none => (.error (.unauthorized "Invalid token"), db)
  | some email =>
    match Repository.get_user_by_email email db with
    | none => (.error .serverError, db)
    | some user =>
      if user.refresh_token != some token then
        (.error (.unauthorized "Invalid refresh token"),
         Repository.update_token user none db)
      else
        let rt := mkRefresh email
        (.ok (mkAccess email, rt, "bearer"),
         Repository.update_token user (some rt) db)

/-- Embeds the POST /auth/request_email handler `request_email`
(src/routes/auth.py).  The second component lists the recipients of the
enqueued background email tasks.  The source reads `user.confirmed` BEFORE
its `if user:` guard, so a request for an email with no account
dereferences None and raises AttributeError, surfaced as a 500 — modelled
as `serverError` with no email enqueued. -/
def request_email (email : String) (db : DB) :
    Except HError String × List String :=
  match Repository.get_user_by_email email db with
  | none => (.error .serverError, [])
  | some user =>
    if user.confirmed then (.ok "Your email is already confirmed", [])
    else (.ok "Check your email for confirmation.", [user.email])

end Routes

/-- Concrete confirmed user for witnesses. -/
def userA : User :=
  { id := 1, username := "ann", email := "a@x.com", password := "hashA"
    refresh_token := some "oldTok", confirmed := true, avatar := none }

/-- Concrete unconfirmed user for witnesses. -/
def userB : User :=
  { id := 2, username := "bob", email := "b@x.com", password := "hashB"
    refresh_token := none, confirmed := false, avatar := none }

/-- Concrete contact owned by `userA`. -/
def contactA : Contact :=
  { id := 10, first_name := "Ann", last_name := "Lee", email := "ann@x.com"
    phone_number := "555", birthday := none, additional_data := none
    user_id := 1 }

/-- Concrete contact whose first name matches the LIKE pattern `%a_b%`
without containing the substring "a_b". -/
def contactAxb : Contact :=
  { id := 11, first_name := "axb", last_name := "Lee", email := "axb@x.com"
    phone_number := "556", birthday := none, additional_data := none
    user_id := 1 }

/-- Concrete contact with a late-January birthday. -/
def contactBday : Contact :=
  { id := 12, first_name := "Cy", last_name := "Day", email := "cy@x.com"
    phone_number := "557", birthday := some { year := 1990, month := 1, day := 30 }
    additional_data := none, user_id := 1 }

/-- Concrete two-user, one-contact database. -/
def dbMain : DB := { users := [userA, userB], contacts := [contactA] }

/-- Concrete database for the search counterexample. -/
def dbSearch : DB := { users := [userA], contacts := [contactAxb] }

/-- Concrete database for the birthday counterexample. -/
def dbBday : DB := { users := [userA], contacts := [contactBday] }

/-- Concrete update payload with a null birthday and null additional data. -/
def bodyU : ContactUpdate :=
  { first_name := "Anne", last_name := "Li", email := "anne@x.com"
    phone_number := "777", birthday := none, additional_data := none }

/-- Concrete creation payload. -/
def bodyC : ContactCreate :=
  { first_name := "New", last_name := "One", email := "new@x.com"
    phone_number := "888", birthday := none, additional_data := none }

/-- Concrete password verifier rejecting everything; the login witness only
exercises the branches that precede password verification. -/
def verify0 : String → String → Bool := fun _ _ => false

/-- Concrete token maker. -/
def mk0 : String → String := fun e => e ++ "-tok"

/-- Concrete refresh-token decoder: both "newTok" and "oldTok" carry
userA's email as subject. -/
def decode0 : String → Option String := fun t =>
  if t == "newTok" || t == "oldTok" then some "a@x.com" else none

end ContactsApp

namespace ContactsApp

/-! ### Theorems -/

/-- C1: for distinct owners A and B, the owner-scoped repository operations
queried as B on the id of a contact of A return None and leave the database
unchanged: a contact is never returned to or mutated by a non-owner. -/
theorem c1_owner_scoped_isolation (A B : User) (cid : Nat)
    (body : ContactUpdate) (db : DB)
    (hne : A.id ≠ B.id)
    (hA : ∀ x ∈ db.contacts, x.id = cid → x.user_id = A.id) :
    Repository.get_contact cid B db = none ∧
    Repository.update_contact cid body B db = (none, db) ∧
    Repository.remove_contact cid B db = (none, db) := by
  have hnone : db.contacts.find? (fun c => c.id == cid && c.user_id == B.id) = none := by
    rw [List.find?_eq_none]
    intro x hx
    simp only [Bool.and_eq_true, beq_iff_eq, not_and]
    intro hid huid
    exact hne ((hA x hx hid) ▸ huid)
  refine ⟨?_, ?_, ?_⟩ <;>
    simp [Repository.get_contact, Repository.update_contact,
      Repository.remove_contact, hnone]

/-- Witness for C1 at a concrete input: userB cannot read, update or delete
userA's contact. -/
theorem c1_witness :
    Repository.get_contact 10 userB dbMain = none ∧
    Repository.update_contact 10 bodyU userB dbMain = (none, dbMain) ∧
    Repository.remove_contact 10 userB dbMain = (none, dbMain) :=
  c1_owner_scoped_isolation userA userB 10 bodyU dbMain (by decide) (by decide)

/-- C7: on a contact found for the caller, update_contact overwrites every
payload field of the stored row — including fields whose payload value is
None — keeps its id and owner, and returns the updated contact. -/
theorem c7_update_overwrites_all_fields (cid : Nat) (body : ContactUpdate)
    (user : User) (db : DB) (c : Contact)
    (h : db.contacts.find? (fun x => x.id == cid && x.user_id == user.id) = some c) :
    ∃ c2, (Repository.update_contact cid body user db).1 = some c2 ∧
      c2.first_name = body.first_name ∧ c2.last_name = body.last_name ∧
      c2.email = body.email ∧ c2.phone_number = body.phone_number ∧
      c2.birthday = body.birthday ∧ c2.additional_data = body.additional_data ∧
      c2.id = c.id ∧ c2.user_id = c.user_id := by
  refine ⟨Repository.setAllFields body c, ?_, rfl, rfl, rfl, rfl, rfl, rfl, rfl, rfl⟩
  simp [Repository.update_contact, h]

/-- Witness for C7 at a concrete input: the stored birthday is overwritten
by the payload's null birthday. -/
theorem c7_witness :
    ∃ c2, (Repository.update_contact 10 bodyU userA dbMain).1 = some c2 ∧
      c2.first_name = bodyU.first_name ∧ c2.last_name = bodyU.last_name ∧
      c2.email = bodyU.email ∧ c2.phone_number = bodyU.phone_number ∧
      c2.birthday = bodyU.birthday ∧ c2.additional_data = bodyU.additional_data ∧
      c2.id = contactA.id ∧ c2.user_id = contactA.user_id :=
  c7_update_overwrites_all_fields 10 bodyU userA dbMain contactA rfl

/-- C8: update_contact on an id absent among the caller's contacts returns
None and performs no write. -/
theorem c8_update_absent_noop (cid : Nat) (body : ContactUpdate)
    (user : User) (db : DB)
    (h : db.contacts.find? (fun x => x.id == cid && x.user_id == user.id) = none) :
    Repository.update_contact cid body user db = (none, db) := by
  simp [Repository.update_contact, h]

/-- Witness for C8 at a concrete input. -/
theorem c8_witness :
    Repository.update_contact 99 bodyU userA dbMain = (none, dbMain) :=
  c8_update_absent_noop 99 bodyU userA dbMain rfl

end ContactsApp

namespace ContactsApp

/-- Helper: removing, from a list of contacts with pairwise-distinct ids,
every row carrying the id of a member removes exactly one row. -/
theorem filter_ne_id_length (l : List Contact) (c : Contact)
    (hN : (l.map (fun x => x.id)).Nodup) (hc : c ∈ l) :
    (l.filter (fun x => !(x.id == c.id))).length + 1 = l.length := by
  induction l with
  | nil => cases hc
  | cons a as ih =>
    rw [List.map_cons, List.nodup_cons] at hN
    rcases List.mem_cons.mp hc with rfl | hmem
    · have heq : as.filter (fun x => !(x.id == c.id)) = as := by
        apply List.filter_eq_self.mpr
        intro x hx
        simp only [Bool.not_eq_true', beq_eq_false_iff_ne, ne_eq]
        intro hxe
        exact hN.1 (List.mem_map.mpr ⟨x, hx, hxe⟩)
      simp [List.filter_cons, heq]
    · have hne : ¬(a.id = c.id) := by
        intro he
        exact hN.1 (he ▸ List.mem_map.mpr ⟨c, hmem, rfl⟩)
      have : (!(a.id == c.id)) = true := by simp [hne]
      simp only [List.filter_cons, this, if_true, List.length_cons]
      rw [← ih hN.2 hmem]

/-- C9: remove_contact on an absent id returns None and performs no write;
on a present id it returns that row and removes exactly it — every other
contact survives, nothing new appears, the users table is untouched, and
the contact count drops by exactly one. -/
theorem c9_remove_frame (cid : Nat) (user : User) (db : DB)
    (hN : (db.contacts.map (fun x => x.id)).Nodup) :
    (db.contacts.find? (fun x => x.id == cid && x.user_id == user.id) = none →
      Repository.remove_contact cid user db = (none, db)) ∧
    (∀ c, db.contacts.find? (fun x => x.id == cid && x.user_id == user.id) = some c →
      (Repository.remove_contact cid user db).1 = some c ∧
      (Repository.remove_contact cid user db).2.users = db.users ∧
      c ∈ db.contacts ∧
      (∀ x ∈ db.contacts, x.id ≠ c.id →
        x ∈ (Repository.remove_contact cid user db).2.contacts) ∧
      (∀ x ∈ (Repository.remove_contact cid user db).2.contacts,
        x ∈ db.contacts ∧ x.id ≠ c.id) ∧
      (Repository.remove_contact cid user db).2.contacts.length + 1
        = db.contacts.length) := by
  constructor
  · intro h
    simp [Repository.remove_contact, h]
  · intro c h
    have hmem : c ∈ db.contacts := List.mem_of_find?_eq_some h
    have hout : Repository.remove_contact cid user db
        = (some c, { db with contacts := db.contacts.filter (fun x => !(x.id == c.id)) }) := by
      simp [Repository.remove_contact, h]
    refine ⟨by rw [hout], by rw [hout], hmem, ?_, ?_, ?_⟩
    · intro x hx hne
      rw [hout]
      exact List.mem_filter.mpr ⟨hx, by simp [hne]⟩
    · intro x hx
      rw [hout] at hx
      have := List.mem_filter.mp hx
      refine ⟨this.1, ?_⟩
      have h2 := this.2
      simp only [Bool.not_eq_true', beq_eq_false_iff_ne, ne_eq] at h2
      exact h2
    · rw [hout]
      exact filter_ne_id_length db.contacts c hN hmem

/-- Witness for C9 at concrete inputs: removing an absent id is a no-op,
removing a present id returns the stored row. -/
theorem c9_witness :
    Repository.remove_contact 99 userA dbMain = (none, dbMain) ∧
    (Repository.remove_contact 10 userA dbMain).1 = some contactA := by
  have h1 := (c9_remove_frame 99 userA dbMain (by decide)).1 rfl
  have h2 := ((c9_remove_frame 10 userA dbMain (by decide)).2 contactA rfl).1
  exact ⟨h1, h2⟩

end ContactsApp

namespace ContactsApp

/-- Helper: `anySuffix f s` holds exactly when `f` holds of some suffix. -/
theorem anySuffix_eq_true (f : List Char → Bool) (s : List Char) :
    anySuffix f s = true ↔ ∃ t, t <:+ s ∧ f t = true := by
  induction s with
  | nil => simp [anySuffix, List.suffix_nil]
  | cons c s2 ih =>
    simp only [anySuffix, Bool.or_eq_true, ih, List.suffix_cons_iff]
    aesop

/-- Helper: the pattern consisting of a single `%` matches every value. -/
theorem likeMatch_pct_all (s : List Char) : likeMatch ['%'] s = true := by
  rw [show likeMatch ['%'] s = anySuffix (fun t => likeMatch [] t) s from by
    simp [likeMatch]]
  rw [anySuffix_eq_true]
  exact ⟨[], List.nil_suffix, rfl⟩

/-- Helper: a wildcard-free pattern followed by `%` matches exactly the
values of which it is a case-insensitive prefix. -/
theorem likeMatch_append_pct (qs : List Char)
    (hq : ∀ a ∈ qs, ¬a = '%' ∧ ¬a = '_') :
    ∀ s : List Char, (likeMatch (qs ++ ['%']) s = true ↔
      qs.map Char.toLower <+: s.map Char.toLower) := by
  induction qs with
  | nil =>
    intro s
    simp only [List.nil_append, List.map_nil]
    constructor
    · intro _
      exact List.nil_prefix
    · intro _
      exact likeMatch_pct_all s
  | cons a as ih =>
    intro s
    have ha := hq a (List.mem_cons_self a as)
    have ha1 : (a == '%') = false := by simp [ha.1]
    have ha2 : (a == '_') = false := by simp [ha.2]
    have ih2 := ih (fun x hx => hq x (List.mem_cons_of_mem a hx))
    cases s with
    | nil => simp [likeMatch, ha1, List.prefix_nil]
    | cons c s2 =>
      have hstep : likeMatch ((a :: as) ++ ['%']) (c :: s2)
          = ((a == '_' || lowerEq a c) && likeMatch (as ++ ['%']) s2) := by
        simp [likeMatch, ha1]
      rw [hstep, List.map_cons, List.map_cons, List.cons_prefix_cons]
      simp only [ha2, Bool.false_or, Bool.and_eq_true, lowerEq, beq_iff_eq]
      exact and_congr Iff.rfl (ih2 s2)

/-- Helper: a wildcard-free pattern wrapped in `%...%` matches exactly the
values of which it is a case-insensitive infix. -/
theorem likeMatch_pct_wrap (qs : List Char)
    (hq : ∀ a ∈ qs, ¬a = '%' ∧ ¬a = '_') :
    ∀ s : List Char, (likeMatch ('%' :: (qs ++ ['%'])) s = true ↔
      qs.map Char.toLower <:+: s.map Char.toLower) := by
  intro s
  induction s with
  | nil =>
    have h0 : likeMatch ('%' :: (qs ++ ['%'])) [] = likeMatch (qs ++ ['%']) [] := by
      simp [likeMatch, anySuffix]
    rw [h0, likeMatch_append_pct qs hq []]
    simp [List.prefix_nil, List.infix_nil, List.map_eq_nil_iff]
  | cons c s2 ih =>
    have hstep : likeMatch ('%' :: (qs ++ ['%'])) (c :: s2)
        = (likeMatch (qs ++ ['%']) (c :: s2) || likeMatch ('%' :: (qs ++ ['%'])) s2) := by
      simp [likeMatch, anySuffix]
    rw [hstep]
    simp only [Bool.or_eq_true, ih, likeMatch_append_pct qs hq (c :: s2),
      List.map_cons, List.infix_cons_iff]

/-- Helper: for a wildcard-free query, the repository's ILIKE test is the
case-insensitive-substring test. -/
theorem ilike_eq_substring (q v : String) (hq : noWild q = true) :
    ilike v (likePattern q)
      = decide (q.toList.map Char.toLower <:+: v.toList.map Char.toLower) := by
  have hq' : ∀ a ∈ q.toList, ¬a = '%' ∧ ¬a = '_' := by
    intro a ha
    have h := List.all_eq_true.mp hq a ha
    simp only [Bool.and_eq_true, Bool.not_eq_true', beq_eq_false_iff_ne, ne_eq] at h
    exact h
  have hpat : (likePattern q).toList = '%' :: (q.toList ++ ['%']) := by
    simp [likePattern, String.toList, String.data_append]
  rw [ilike, hpat]
  have hiff := likeMatch_pct_wrap q.toList hq' v.toList
  by_cases hinf : q.toList.map Char.toLower <:+: v.toList.map Char.toLower
  · rw [hiff.mpr hinf]
    exact (decide_eq_true hinf).symm
  · have hfalse : likeMatch ('%' :: (q.toList ++ ['%'])) v.toList = false := by
      cases hb : likeMatch ('%' :: (q.toList ++ ['%'])) v.toList
      · rfl
      · exact absurd (hiff.mp hb) hinf
    rw [hfalse]
    exact (decide_eq_false hinf).symm

/-- Helper: the join emission for a contact whose owner id matches no user
row is empty. -/
theorem filterMap_join_none (users : List User) (P : Bool) (uid : Nat)
    (c : Contact) (hno : ∀ u ∈ users, ¬uid = u.id) :
    users.filterMap (fun u => if P && (uid == u.id) then some c else none)
      = [] := by
  induction users with
  | nil => rfl
  | cons u us ih =>
    have hcond : (uid == u.id) = false := by
      simp [hno u (List.mem_cons_self u us)]
    rw [List.filterMap_cons]
    simp only [hcond, Bool.and_false, if_false]
    exact ih (fun v hv => hno v (List.mem_cons_of_mem u hv))

/-- Helper: with pairwise-distinct user ids and an existing owner row, the
join emits the contact exactly once when the row condition holds and not at
all otherwise. -/
theorem filterMap_join (users : List User) (P : Bool) (uid : Nat)
    (c : Contact) (hN : (users.map (fun u => u.id)).Nodup)
    (hex : ∃ u ∈ users, u.id = uid) :
    users.filterMap (fun u => if P && (uid == u.id) then some c else none)
      = if P then [c] else [] := by
  induction users with
  | nil => exact absurd hex (by simp)
  | cons u us ih =>
    rw [List.map_cons, List.nodup_cons] at hN
    by_cases hu : u.id = uid
    · have hcond : (uid == u.id) = true := by simp [hu]
      have hrest : us.filterMap
          (fun v => if P && (uid == v.id) then some c else none) = [] := by
        apply filterMap_join_none
        intro v hv hvid
        exact hN.1 (by
          rw [hu]
          exact List.mem_map.mpr ⟨v, hv, hvid.symm⟩)
      rw [List.filterMap_cons]
      simp only [hcond, Bool.and_true]
      cases P
      · simp
      · simpa using hrest
    · have hcond : (uid == u.id) = false := by
        simp
        exact fun h => hu h.symm
      have hex2 : ∃ v ∈ us, v.id = uid := by
        rcases hex with ⟨v, hv, hvid⟩
        rcases List.mem_cons.mp hv with rfl | hmem
        · exact absurd hvid hu
        · exact ⟨v, hmem, hvid⟩
      rw [List.filterMap_cons]
      simp only [hcond, Bool.and_false, if_false]
      exact ih hN.2 hex2

/-- Helper: under the schema invariants (unique user ids, foreign key from
contacts to users), the implicit cross join of the search and birthday
queries degenerates into a plain filter on the contacts table. -/
theorem flatMap_join_eq_filter (contacts : List Contact) (users : List User)
    (Q : Contact → Bool)
    (hN : (users.map (fun u => u.id)).Nodup)
    (hFK : ∀ c ∈ contacts, ∃ u ∈ users, u.id = c.user_id) :
    (contacts.flatMap (fun c =>
        users.filterMap (fun u =>
          if Q c && (c.user_id == u.id) then some c else none)))
      = contacts.filter Q := by
  induction contacts with
  | nil => rfl
  | cons c cs ih =>
    rw [List.flatMap_cons,
      filterMap_join users (Q c) c.user_id c hN (hFK c (List.mem_cons_self c cs)),
      ih (fun x hx => hFK x (List.mem_cons_of_mem c hx)), List.filter_cons]
    by_cases h : Q c = true
    · simp [h]
    · simp [h]

/-- C2 counterexample: the claim quantifies over every query string, but a
query containing a LIKE wildcard is interpolated into the pattern, so
search_contacts with first_name "a_b" returns a contact whose first name
"axb" does not contain "a_b" as a substring, while the claimed set is
empty. -/
theorem c2_counterexample :
    Repository.search_contacts dbSearch "a_b" "" "" = [contactAxb] ∧
    spec_search_contacts dbSearch "a_b" "" "" = [] := ⟨rfl, rfl⟩

/-- C2 (amended): for query strings free of LIKE wildcards, search_contacts
returns exactly the contacts — across all users — whose first name, last
name and email each case-insensitively contain the corresponding query
string as a substring (AND semantics); empty queries match everything. -/
theorem c2_search_ci_substring_no_wildcards
    (db : DB) (first_name last_name email : String)
    (hf : noWild first_name = true) (hl : noWild last_name = true)
    (he : noWild email = true)
    (hN : (db.users.map (fun u => u.id)).Nodup)
    (hFK : ∀ c ∈ db.contacts, ∃ u ∈ db.users, u.id = c.user_id) :
    Repository.search_contacts db first_name last_name email
      = spec_search_contacts db first_name last_name email := by
  unfold Repository.search_contacts spec_search_contacts
  rw [flatMap_join_eq_filter db.contacts db.users
    (Repository.searchCond first_name last_name email) hN hFK]
  apply List.filter_congr
  intro c _
  unfold Repository.searchCond
  rw [ilike_eq_substring first_name c.first_name hf,
    ilike_eq_substring last_name c.last_name hl,
    ilike_eq_substring email c.email he]

/-- Witness for C2 at concrete inputs: a wildcard-free search agrees with
the case-insensitive substring semantics. -/
theorem c2_witness :
    Repository.search_contacts dbMain "an" "" "com"
      = spec_search_contacts dbMain "an" "" "com" :=
  c2_search_ci_substring_no_wildcards dbMain "an" "" "com"
    (by decide) (by decide) (by decide) (by decide) (by decide)

end ContactsApp

namespace ContactsApp

/-- Helper: adding days that stay inside the current month only moves the
day-of-month field. -/
theorem addDays_same_month (n : Nat) :
    ∀ d : Date, d.day + n ≤ daysInMonth d.year d.month →
      addDays n d = { d with day := d.day + n } := by
  induction n with
  | zero =>
    intro d _
    simp [addDays]
  | succ n ih =>
    intro d h
    have hlt : d.day < daysInMonth d.year d.month := by omega
    have hnext : nextDay d = { d with day := d.day + 1 } := by
      rw [nextDay, if_pos hlt]
    rw [addDays, hnext, ih { d with day := d.day + 1 } (by simpa using by omega)]
    have harith : d.day + 1 + n = d.day + (n + 1) := by omega
    simp [harith]

/-- C3 counterexample: with today = 2024-01-28 the source's upper bound is
the day-of-month of 2024-02-04, i.e. 4, so a birthday on January 30 —
inside the claimed window [28, 35] and in today's month — is not returned:
the function returns nothing at all, while the claimed set is non-empty. -/
theorem c3_counterexample :
    Repository.get_contacts_upcoming_birthdays dbBday
        { year := 2024, month := 1, day := 28 } = [] ∧
    spec_upcoming_birthdays dbBday
        { year := 2024, month := 1, day := 28 } = [contactBday] := ⟨rfl, rfl⟩

/-- C3 (amended): whenever today's day + 7 does not exceed the length of
today's month, get_contacts_upcoming_birthdays returns exactly the contacts
whose birthday month equals today's month and whose birthday day-of-month
lies in [today's day, today's day + 7]; when the 7-day window crosses the
month boundary the upper bound wraps to the day-of-month of today + 7 days
in the next month, and the function returns no contacts at all. -/
theorem c3_upcoming_birthdays_same_month_window (db : DB) (today : Date)
    (h7 : today.day + 7 ≤ daysInMonth today.year today.month)
    (hN : (db.users.map (fun u => u.id)).Nodup)
    (hFK : ∀ c ∈ db.contacts, ∃ u ∈ db.users, u.id = c.user_id) :
    Repository.get_contacts_upcoming_birthdays db today
      = spec_upcoming_birthdays db today := by
  unfold Repository.get_contacts_upcoming_birthdays spec_upcoming_birthdays
  rw [flatMap_join_eq_filter db.contacts db.users
    (Repository.bdayCond today (addDays 7 today)) hN hFK]
  apply List.filter_congr
  intro c _
  rw [addDays_same_month 7 today h7]
  unfold Repository.bdayCond
  cases c.birthday with
  | none => rfl
  | some b => simp [ge_iff_le]

/-- Witness for C3 at a concrete input: today = 2024-01-23, window [23, 30]
inside January, returning the January-30 contact on both sides. -/
theorem c3_witness :
    Repository.get_contacts_upcoming_birthdays dbBday
        { year := 2024, month := 1, day := 23 }
      = spec_upcoming_birthdays dbBday { year := 2024, month := 1, day := 23 } :=
  c3_upcoming_birthdays_same_month_window dbBday
    { year := 2024, month := 1, day := 23 } (by decide) (by decide) (by decide)

/-- C4 counterexample: the GET /contacts/search/ and
GET /contacts/upcoming-birthdays/ handlers declare no auth dependency and
hand contact data to a request carrying no credential at all. -/
theorem c4_counterexample :
    Routes.search_contacts_api "" "" "" dbSearch = Except.ok [contactAxb] ∧
    Routes.get_upcoming_birthdays dbBday { year := 2024, month := 1, day := 23 }
      = Except.ok [contactBday] := ⟨rfl, rfl⟩

/-- C4 (amended): every contacts route except GET /contacts/search/ and
GET /contacts/upcoming-birthdays/ performs the dependency-injected auth
check before any repository call: an unauthenticated request is answered
401 and neither receives contact data nor changes the database. -/
theorem c4_auth_required_except_search_and_birthdays
    (skip limit cid : Nat) (bodyc : ContactCreate) (bodyu : ContactUpdate)
    (db : DB) :
    Routes.read_contacts none skip limit db
      = Except.error (HError.unauthorized "Not authenticated") ∧
    Routes.read_contact none cid db
      = Except.error (HError.unauthorized "Not authenticated") ∧
    Routes.create_contact none bodyc db
      = (Except.error (HError.unauthorized "Not authenticated"), db) ∧
    Routes.update_contact none bodyu cid db
      = (Except.error (HError.unauthorized "Not authenticated"), db) ∧
    Routes.remove_contact none cid db
      = (Except.error (HError.unauthorized "Not authenticated"), db) :=
  ⟨rfl, rfl, rfl, rfl, rfl⟩

/-- C5: a presented refresh token that decodes to the user's email but
differs from the stored one is answered 401 AND the stored token is set to
None, so a subsequent refresh presenting the formerly valid stored token
(or any other token decoding to this user) is also answered 401. -/
theorem c5_refresh_mismatch_clears_token
    (decode : String → Option String) (mkAccess mkRefresh : String → String)
    (token : String) (db : DB) (user : User)
    (hfind : db.users.find? (fun u => u.email == user.email) = some user)
    (hdec : decode token = some user.email)
    (hne : user.refresh_token ≠ some token) :
    (Routes.refresh_token decode mkAccess mkRefresh token db).1
      = Except.error (HError.unauthorized "Invalid refresh token") ∧
    (Routes.refresh_token decode mkAccess mkRefresh token db).2
      = Repository.update_token user none db ∧
    (∀ told : String, decode told = some user.email →
      (Routes.refresh_token decode mkAccess mkRefresh told
          (Repository.update_token user none db)).1
        = Except.error (HError.unauthorized "Invalid refresh token")) := by
  have hbne : (user.refresh_token != some token) = true := by
    simpa [bne_iff_ne] using hne
  refine ⟨?_, ?_, ?_⟩
  · simp [Routes.refresh_token, hdec, Repository.get_user_by_email, hfind, hbne]
  · simp [Routes.refresh_token, hdec, Repository.get_user_by_email, hfind, hbne]
  · intro told hdec2
    have hfind2 : (Repository.update_token user none db).users.find?
        (fun u => u.email == user.email)
          = some { user with refresh_token := none } := by
      unfold Repository.update_token
      rw [List.find?_map]
      have hcomp : ((fun u : User => u.email == user.email) ∘
          (fun u : User => if u.id == user.id
            then { u with refresh_token := none } else u))
          = fun u : User => u.email == user.email := by
        funext u
        simp only [Function.comp_apply]
        by_cases h : (u.id == user.id) = true
        · rw [if_pos h]
        · rw [if_neg h]
      rw [hcomp, hfind]
      simp
    have hbne2 : ((none : Option String) != some told) = true := by
      simp [bne_iff_ne]
    simp [Routes.refresh_token, hdec2, Repository.get_user_by_email, hfind2, hbne2]

/-- Witness for C5 at concrete inputs: presenting "newTok" while "oldTok"
is stored yields 401, and afterwards presenting the formerly stored
"oldTok" yields 401 again. -/
theorem c5_witness :
    (Routes.refresh_token decode0 mk0 mk0 "newTok" dbMain).1
      = Except.error (HError.unauthorized "Invalid refresh token") ∧
    (Routes.refresh_token decode0 mk0 mk0 "oldTok"
        (Repository.update_token userA none dbMain)).1
      = Except.error (HError.unauthorized "Invalid refresh token") := by
  have h := c5_refresh_mismatch_clears_token decode0 mk0 mk0 "newTok" dbMain
    userA rfl rfl (by decide)
  exact ⟨h.1, h.2.2 "oldTok" rfl⟩

/-- C6: the code dereferences `user.confirmed` before its None check, so a
request_email call for an address with no account raises AttributeError
(surfaced as a 500 server error) and enqueues no email — it does not
complete with a message response as the claim states. -/
theorem c6_request_email_absent_crash :
    Routes.request_email "ghost@x.com" dbMain
      = (Except.error HError.serverError, []) := rfl

/-- C10: login answers 401 exactly for an unknown email, an unconfirmed
account, or a failing password verification, checked in that precedence
order: the unknown-email answer does not consult confirmation, the
unconfirmed answer does not consult the password verifier, and when none of
the three conditions holds login succeeds. -/
theorem c10_login_precedence
    (verify : String → String → Bool) (mkAccess mkRefresh : String → String)
    (username password : String) (db : DB) :
    (Repository.get_user_by_email username db = none →
      (Routes.login verify mkAccess mkRefresh username password db).1
        = Except.error (HError.unauthorized "Invalid email")) ∧
    (∀ user, Repository.get_user_by_email username db = some user →
      user.confirmed = false →
      (Routes.login verify mkAccess mkRefresh username password db).1
        = Except.error (HError.unauthorized "Email not confirmed")) ∧
    (∀ user, Repository.get_user_by_email username db = some user →
      user.confirmed = true → verify password user.password = false →
      (Routes.login verify mkAccess mkRefresh username password db).1
        = Except.error (HError.unauthorized "Invalid password")) ∧
    (∀ user, Repository.get_user_by_email username db = some user →
      user.confirmed = true → verify password user.password = true →
      (Routes.login verify mkAccess mkRefresh username password db).1
        = Except.ok (mkAccess user.email, mkRefresh user.email, "bearer")) := by
  refine ⟨?_, ?_, ?_, ?_⟩
  · intro h
    simp [Routes.login, h]
  · intro user h hconf
    simp [Routes.login, h, hconf]
  · intro user h hconf hver
    simp [Routes.login, h, hconf, hver]
  · intro user h hconf hver
    simp [Routes.login, h, hconf, hver]

/-- Witness for C10 at concrete inputs: an unknown email is answered
"Invalid email" and an unconfirmed account "Email not confirmed". -/
theorem c10_witness :
    (Routes.login verify0 mk0 mk0 "ghost@x.com" "pw" dbMain).1
      = Except.error (HError.unauthorized "Invalid email") ∧
    (Routes.login verify0 mk0 mk0 "b@x.com" "pw" dbMain).1
      = Except.error (HError.unauthorized "Email not confirmed") := by
  have h1 := (c10_login_precedence verify0 mk0 mk0 "ghost@x.com" "pw" dbMain).1 rfl
  have h2 := (c10_login_precedence verify0 mk0 mk0 "b@x.com" "pw" dbMain).2.1
    userB rfl rfl
  exact ⟨h1, h2⟩

end ContactsApp
